import Mathlib

/-!
Shallow embedding of the continuous hardware-monitoring engine of the
`hardware-query` repository (src/thermal.rs and src/monitoring.rs), together
with theorems settling the specification claims about it.

Modelling conventions:
* `f32`/`f64` values (temperatures, watts, confidence) are embedded as `ℚ`;
  all arithmetic performed by the embedded code (addition, multiplication by
  constants, division, comparison) is exact on the rationals involved.
* `std::time::SystemTime` / `Instant` timestamps are abstract instants `Nat`;
  `Duration` values are `Nat` (whole time units; seconds where the code uses
  `Duration::from_secs`).
* Fallible provider queries (`Result<T, E>`) are `Except String T`, the error
  message standing for the rendered error.
* The hardware snapshot type (`HardwareInfo`) is opaque to the monitoring
  core (it is only stored, cloned and forwarded), so the monitoring model is
  parameterised by a type `HW` standing for it.
-/

namespace HardwareQuery

/-- Temperature reading with timestamp (struct `TemperatureReading`, thermal.rs). -/
structure TemperatureReading where
  temperature : ℚ
  timestamp : Nat
deriving DecidableEq, Repr

/-- Thermal sensor information (struct `ThermalSensor`, thermal.rs). -/
structure ThermalSensor where
  name : String
  temperature : ℚ
  critical_temperature : Option ℚ
  max_temperature : Option ℚ
  sensor_type : String
  temperature_history : List TemperatureReading
deriving DecidableEq, Repr

/-- Single point on a fan curve (struct `CurvePoint`, thermal.rs). -/
structure CurvePoint where
  temperature : ℚ
  speed_percent : ℚ
deriving DecidableEq, Repr

/-- Fan curve configuration (struct `FanCurve`, thermal.rs). -/
structure FanCurve where
  curve_points : List CurvePoint
  hysteresis : ℚ
  min_speed_percent : ℚ
  max_speed_percent : ℚ
deriving DecidableEq, Repr

/-- Fan information (struct `FanInfo`, thermal.rs). -/
structure FanInfo where
  name : String
  speed_rpm : Nat
  max_speed_rpm : Option Nat
  speed_percent : Option ℚ
  controllable : Bool
  fan_curve : Option FanCurve
deriving DecidableEq, Repr

/-- Severity of thermal throttling (enum `ThrottlingSeverity`, thermal.rs). -/
inductive ThrottlingSeverity where
  | None
  | Light
  | Moderate
  | Heavy
  | Severe
deriving DecidableEq, Repr

/-- Thermal throttling prediction (struct `ThrottlingPrediction`, thermal.rs).
`time_to_throttle` is the `Duration` in whole seconds. -/
structure ThrottlingPrediction where
  will_throttle : Bool
  time_to_throttle : Option Nat
  severity : ThrottlingSeverity
  recommendations : List String
  confidence : ℚ
deriving DecidableEq, Repr

/-- System thermal status (enum `ThermalStatus`, thermal.rs). -/
inductive ThermalStatus where
  | Normal
  | Warm
  | Hot
  | Critical
  | Unknown
deriving DecidableEq, Repr

/-- Thermal Design Power information (struct `TDPInfo`, thermal.rs). -/
structure TDPInfo where
  cpu_tdp : Option ℚ
  gpu_tdp : Option ℚ
  system_tdp : Option ℚ
  power_ratio : Option ℚ
deriving DecidableEq, Repr

/-- System thermal information (struct `ThermalInfo`, thermal.rs). -/
structure ThermalInfo where
  sensors : List ThermalSensor
  fans : List FanInfo
  thermal_status : ThermalStatus
  ambient_temperature : Option ℚ
  tdp_info : Option TDPInfo
deriving DecidableEq, Repr

/-- Substring test on character lists, embedding Rust `str::contains`. -/
def charsContain (pat : List Char) : List Char → Bool
  | [] => pat.isEmpty
  | c :: rest => List.isPrefixOf pat (c :: rest) || charsContain pat rest

/-- Substring test on strings, embedding Rust `str::contains`. -/
def strContains (s pat : String) : Bool := charsContain pat.data s.data

/-- Maximum temperature across all sensors (`ThermalInfo::max_temperature`). -/
def ThermalInfo.max_temperature (t : ThermalInfo) : Option ℚ :=
  t.sensors.foldl
    (fun acc sensor =>
      match acc with
      | none => some sensor.temperature
      | some max_temp => some (max max_temp sensor.temperature))
    none

/-- CPU temperature, first sensor whose type contains "cpu"
(`ThermalInfo::cpu_temperature`). -/
def ThermalInfo.cpu_temperature (t : ThermalInfo) : Option ℚ :=
  (t.sensors.find? fun sensor => strContains sensor.sensor_type.toLower "cpu").map
    (·.temperature)

/-- GPU temperature, first sensor whose type contains "gpu"
(`ThermalInfo::gpu_temperature`). -/
def ThermalInfo.gpu_temperature (t : ThermalInfo) : Option ℚ :=
  (t.sensors.find? fun sensor => strContains sensor.sensor_type.toLower "gpu").map
    (·.temperature)

/-- Average temperature trend across all sensors with at least three recorded
readings (`ThermalInfo::calculate_temperature_trend`).  The fold carries the
running `(total_trend, sensor_count)` pair of the source loop. -/
def ThermalInfo.calculate_temperature_trend (t : ThermalInfo) : ℚ :=
  let acc := t.sensors.foldl
    (fun (acc : ℚ × Nat) sensor =>
      if 3 ≤ sensor.temperature_history.length then
        let recent_temps := (sensor.temperature_history.reverse.take 3).map
          (·.temperature)
        let trend := (recent_temps.getD 0 0 - recent_temps.getD 2 0) / 2
        (acc.1 + trend, acc.2 + 1)
      else acc)
    (0, 0)
  if 0 < acc.2 then acc.1 / (acc.2 : ℚ) else 0

/-- Predict thermal throttling based on current conditions
(`ThermalInfo::predict_thermal_throttling`). -/
def ThermalInfo.predict_thermal_throttling (t : ThermalInfo)
    (workload_intensity : ℚ) : ThrottlingPrediction :=
  let max_temp := t.max_temperature.getD 0
  let cpu_temp := t.cpu_temperature.getD 0
  let gpu_temp := t.gpu_temperature.getD 0
  let critical_threshold : ℚ := 90
  let temp_trend := t.calculate_temperature_trend
  let projected_temp_increase := workload_intensity * 10
  let projected_max_temp := max_temp + projected_temp_increase + temp_trend
  let will_throttle : Bool := decide (critical_threshold ≤ projected_max_temp)
  let time_to_throttle : Option Nat :=
    if will_throttle = true ∧ 0 < temp_trend then
      let temp_diff := critical_threshold - max_temp
      let time_seconds := temp_diff / temp_trend * 60
      some (Int.toNat (Int.floor (max time_seconds 0)))
    else none
  let severity :=
    if 95 ≤ projected_max_temp then ThrottlingSeverity.Severe
    else if 90 ≤ projected_max_temp then ThrottlingSeverity.Heavy
    else if 85 ≤ projected_max_temp then ThrottlingSeverity.Moderate
    else if 80 ≤ projected_max_temp then ThrottlingSeverity.Light
    else ThrottlingSeverity.None
  let recommendations : List String :=
    if will_throttle = true then
      ["Reduce workload intensity", "Increase fan speeds if possible"] ++
        (if gpu_temp < cpu_temp then ["Focus on CPU cooling optimization"]
         else if cpu_temp < gpu_temp then ["Focus on GPU cooling optimization"]
         else [])
    else []
  let confidence : ℚ := if 2 < |temp_trend| then 0.8 else 0.6
  { will_throttle := will_throttle
    time_to_throttle := time_to_throttle
    severity := severity
    recommendations := recommendations
    confidence := confidence }

/-- Append one reading to a sensor's history, evicting the oldest entry when
the history exceeds ten entries, and update the current temperature.  This is
the body of `ThermalInfo::update_sensor_history` applied to the sensor found
by name. -/
def ThermalSensor.recordReading (sensor : ThermalSensor) (temperature : ℚ)
    (now : Nat) : ThermalSensor :=
  let history := sensor.temperature_history ++
    [({ temperature := temperature, timestamp := now } : TemperatureReading)]
  let history := if 10 < history.length then history.drop 1 else history
  { sensor with temperature_history := history, temperature := temperature }

/-- Apply `recordReading` to the first sensor with the given name, mirroring
`sensors.iter_mut().find(|s| s.name == sensor_name)`. -/
def updateFirstMatching (sensor_name : String) (temperature : ℚ) (now : Nat) :
    List ThermalSensor → List ThermalSensor
  | [] => []
  | sensor :: rest =>
    if sensor.name = sensor_name then
      sensor.recordReading temperature now :: rest
    else
      sensor :: updateFirstMatching sensor_name temperature now rest

/-- Update temperature history for a sensor
(`ThermalInfo::update_sensor_history`). -/
def ThermalInfo.update_sensor_history (t : ThermalInfo) (sensor_name : String)
    (temperature : ℚ) (now : Nat) : ThermalInfo :=
  { t with sensors := updateFirstMatching sensor_name temperature now t.sensors }

/-- Risk level for thermal throttling (enum `ThrottlingRisk`, power.rs). -/
inductive ThrottlingRisk where
  | None
  | Low
  | Moderate
  | High
  | Critical
deriving DecidableEq, Repr

/-- Current system power state (enum `PowerState`, power.rs). -/
inductive PowerState where
  | HighPerformance
  | Balanced
  | PowerSaver
  | BatteryOptimized
  | Custom (name : String)
  | Unknown
deriving DecidableEq, Repr

/-- Available power management mode (struct `PowerMode`, power.rs). -/
structure PowerMode where
  name : String
  description : String
  is_active : Bool
  power_savings_percent : Option ℚ
  performance_impact_percent : Option ℚ
deriving DecidableEq, Repr

/-- Power consumption profile (struct `PowerProfile`, power.rs). -/
structure PowerProfile where
  total_power_draw : Option ℚ
  cpu_power : Option ℚ
  gpu_power : Option ℚ
  memory_power : Option ℚ
  storage_power : Option ℚ
  network_power : Option ℚ
  other_power : Option ℚ
  efficiency_score : ℚ
  thermal_throttling_risk : ThrottlingRisk
  power_state : PowerState
  available_power_modes : List PowerMode
deriving DecidableEq, Repr

/-- Error enum `HardwareQueryError` (error.rs).  Foreign error payloads
(`std::io::Error`, `serde_json::Error`, `wmi::WMIError`) are embedded as their
rendered message strings; `WMIError` is the Windows-only variant. -/
inductive HardwareQueryError where
  | SystemInfoUnavailable (msg : String)
  | DeviceNotFound (msg : String)
  | PlatformNotSupported (msg : String)
  | PermissionDenied (msg : String)
  | IoError (msg : String)
  | SerializationError (msg : String)
  | WMIError (msg : String)
  | GPUDriverError (msg : String)
  | InvalidConfiguration (msg : String)
  | MonitoringError (msg : String)
  | PowerManagementError (msg : String)
  | VirtualizationError (msg : String)
  | ThermalError (msg : String)
  | Unknown (msg : String)
deriving DecidableEq, Repr

/-- Hardware monitoring configuration (struct `MonitoringConfig`,
monitoring.rs).  `update_interval` is the polling `Duration` in abstract time
units. -/
structure MonitoringConfig where
  update_interval : Nat
  enable_thermal : Bool
  enable_power : Bool
  enable_hardware : Bool
  thermal_threshold : ℚ
  power_threshold : Option ℚ
  background_monitoring : Bool
deriving DecidableEq, Repr

/-- Default monitoring configuration (`impl Default for MonitoringConfig`).
`Duration::from_secs(5)` becomes 5 abstract time units. -/
def MonitoringConfig.default : MonitoringConfig where
  update_interval := 5
  enable_thermal := true
  enable_power := true
  enable_hardware := true
  thermal_threshold := 80
  power_threshold := none
  background_monitoring := true

/-- Type of hardware configuration change (enum `HardwareChangeType`,
monitoring.rs). -/
inductive HardwareChangeType where
  | DeviceConnected
  | DeviceDisconnected
  | DriverChanged
  | ConfigurationChanged
  | PerformanceStateChanged
deriving DecidableEq, Repr

/-- Hardware monitoring event (enum `MonitoringEvent`, monitoring.rs),
parameterised by the opaque hardware snapshot type `HW`. -/
inductive MonitoringEvent (HW : Type) where
  | ThermalAlert (sensor_name : String) (temperature : ℚ) (threshold : ℚ)
      (timestamp : Nat)
  | PowerAlert (current_power : ℚ) (threshold : ℚ) (timestamp : Nat)
  | HardwareChanged (change_type : HardwareChangeType) (description : String)
      (timestamp : Nat)
  | MonitoringError (error : String) (timestamp : Nat)
  | MetricsUpdate (hardware_info : Option HW) (thermal_info : Option ThermalInfo)
      (power_profile : Option PowerProfile) (timestamp : Nat)
deriving DecidableEq, Repr

/-- Monitoring statistics (struct `MonitoringStats`, monitoring.rs).
Durations (`uptime`, `average_update_interval`) are `Nat` time units. -/
structure MonitoringStats where
  total_events : Nat
  thermal_alerts : Nat
  power_alerts : Nat
  hardware_changes : Nat
  errors : Nat
  uptime : Nat
  last_update : Nat
  average_update_interval : Nat
deriving DecidableEq, Repr

/-- An invocation of a user-supplied handler, the observable effect of
running a registered monitoring callback.  Handlers are identified by a
label; the payload records the argument the handler receives. -/
inductive Invocation (HW : Type) where
  | eventHandler (label : String) (event : MonitoringEvent HW)
  | thermalHandler (label : String) (info : ThermalInfo)
  | powerHandler (label : String) (profile : PowerProfile)
deriving DecidableEq

/-- A registered monitoring callback (`Box<dyn MonitoringCallback>`):
given a dispatched event it performs a list of user-handler invocations. -/
def Callback (HW : Type) : Type := MonitoringEvent HW → List (Invocation HW)

/-- State of a `HardwareMonitor` (monitoring.rs).  `start_time` is the
`Instant` captured at construction. -/
structure MonitorState (HW : Type) where
  config : MonitoringConfig
  callbacks : List (Callback HW)
  stats : MonitoringStats
  running : Bool
  start_time : Nat
  last_hardware_info : Option HW
  last_thermal_info : Option ThermalInfo
  last_power_profile : Option PowerProfile

/-- Construct a monitor with the given configuration
(`HardwareMonitor::with_config`).  `now_instant` is the `Instant::now()`
stored in `start_time`; `now_system` is the `SystemTime::now()` stored in
the initial `stats.last_update`. -/
def with_config (HW : Type) (config : MonitoringConfig) (now_instant : Nat)
    (now_system : Nat) : MonitorState HW where
  config := config
  callbacks := []
  stats :=
    { total_events := 0
      thermal_alerts := 0
      power_alerts := 0
      hardware_changes := 0
      errors := 0
      uptime := 0
      last_update := now_system
      average_update_interval := 0 }
  running := false
  start_time := now_instant
  last_hardware_info := none
  last_thermal_info := none
  last_power_profile := none

/-- Register a callback (`HardwareMonitor::add_callback`). -/
def add_callback {HW : Type} (m : MonitorState HW) (callback : Callback HW) :
    MonitorState HW :=
  { m with callbacks := m.callbacks ++ [callback] }

/-- Register a closure-based callback (`HardwareMonitor::on_event`): the
closure is invoked with every dispatched event. -/
def on_event {HW : Type} (m : MonitorState HW) (callback : Callback HW) :
    MonitorState HW :=
  add_callback m callback

/-- The closure registered by `HardwareMonitor::on_thermal_threshold`.
It matches `ThermalAlert` events and compares against the threshold, but its
body performs no invocation; the caller-supplied callback is discarded
(`_callback` in the source). -/
def on_thermal_threshold_closure {HW : Type} (threshold : ℚ)
    (_callback : ThermalInfo → List (Invocation HW)) : Callback HW :=
  fun event =>
    match event with
    | .ThermalAlert _ temperature _ _ =>
      if threshold ≤ temperature then [] else []
    | _ => []

/-- Register a thermal threshold callback
(`HardwareMonitor::on_thermal_threshold`). -/
def on_thermal_threshold {HW : Type} (m : MonitorState HW) (threshold : ℚ)
    (callback : ThermalInfo → List (Invocation HW)) : MonitorState HW :=
  on_event m (on_thermal_threshold_closure threshold callback)

/-- The closure registered by `HardwareMonitor::on_power_threshold`.
It matches `PowerAlert` events and compares against the threshold, but its
body performs no invocation; the caller-supplied callback is discarded
(`_callback` in the source). -/
def on_power_threshold_closure {HW : Type} (threshold : ℚ)
    (_callback : PowerProfile → List (Invocation HW)) : Callback HW :=
  fun event =>
    match event with
    | .PowerAlert current_power _ _ =>
      if threshold ≤ current_power then [] else []
    | _ => []

/-- Register a power threshold callback
(`HardwareMonitor::on_power_threshold`). -/
def on_power_threshold {HW : Type} (m : MonitorState HW) (threshold : ℚ)
    (callback : PowerProfile → List (Invocation HW)) : MonitorState HW :=
  on_event m (on_power_threshold_closure threshold callback)

/-- Notify every registered callback of one dispatched event, in registration
order, collecting the user-handler invocations they perform. -/
def dispatchToCallbacks {HW : Type} (callbacks : List (Callback HW))
    (event : MonitoringEvent HW) : List (Invocation HW) :=
  callbacks.foldl (fun acc callback => acc ++ callback event) []

/-- Start monitoring (`HardwareMonitor::start_monitoring`).  Returns the
caller-visible `Result`, the new monitor state, whether a loop task was
spawned, and the events emitted by the call itself (always none). -/
def start_monitoring {HW : Type} (m : MonitorState HW) :
    Except HardwareQueryError Unit × MonitorState HW × Bool ×
      List (MonitoringEvent HW) :=
  if m.running then
    (.error (.InvalidConfiguration "Monitoring is already running"), m, false, [])
  else
    (.ok (), { m with running := true }, true, [])

/-- Stop monitoring (`HardwareMonitor::stop_monitoring`). -/
def stop_monitoring {HW : Type} (m : MonitorState HW) : MonitorState HW :=
  { m with running := false }

/-- Whether monitoring is currently running (`HardwareMonitor::is_monitoring`). -/
def is_monitoring {HW : Type} (m : MonitorState HW) : Bool :=
  m.running

/-- Current monitoring statistics (`HardwareMonitor::get_stats`): a copy of
the stored stats with `uptime` recomputed as `start_time.elapsed()`, i.e.
`now - start_time`. -/
def get_stats {HW : Type} (m : MonitorState HW) (now : Nat) : MonitoringStats :=
  { m.stats with uptime := now - m.start_time }

/-- Input to one iteration of the monitoring loop: the outcomes of the three
provider queries (`HardwareInfo::query`, `ThermalInfo::query`,
`PowerProfile::query`) this tick, the tick's `SystemTime::now()` timestamp,
and the measured duration `update_start.elapsed()` of the tick. -/
structure TickInput (HW : Type) where
  hardware_result : Except String HW
  thermal_result : Except String ThermalInfo
  power_result : Except String PowerProfile
  now : Nat
  tick_duration : Nat

/-- Hardware section of the loop body (monitoring.rs lines 280-292): the
obtained snapshot, if any, and the events pushed. -/
def hardwareStep {HW : Type} (config : MonitoringConfig) (inp : TickInput HW) :
    Option HW × List (MonitoringEvent HW) :=
  if config.enable_hardware then
    match inp.hardware_result with
    | .ok info => (some info, [])
    | .error e =>
      (none, [.MonitoringError ("Failed to query hardware info: " ++ e) inp.now])
  else (none, [])

/-- Thermal section of the loop body (monitoring.rs lines 294-317): the
obtained snapshot, if any, and the events pushed (one `ThermalAlert` per
sensor at or above the threshold, in sensor order; a `MonitoringError` on
provider failure). -/
def thermalStep {HW : Type} (config : MonitoringConfig) (inp : TickInput HW) :
    Option ThermalInfo × List (MonitoringEvent HW) :=
  if config.enable_thermal then
    match inp.thermal_result with
    | .ok info =>
      (some info,
        info.sensors.filterMap fun sensor =>
          if config.thermal_threshold ≤ sensor.temperature then
            some (.ThermalAlert sensor.name sensor.temperature
              config.thermal_threshold inp.now)
          else none)
    | .error e =>
      (none, [.MonitoringError ("Failed to query thermal info: " ++ e) inp.now])
  else (none, [])

/-- Power section of the loop body (monitoring.rs lines 319-342). -/
def powerStep {HW : Type} (config : MonitoringConfig) (inp : TickInput HW) :
    Option PowerProfile × List (MonitoringEvent HW) :=
  if config.enable_power then
    match inp.power_result with
    | .ok profile =>
      (some profile,
        match profile.total_power_draw, config.power_threshold with
        | some current_power, some threshold =>
          if threshold ≤ current_power then
            [.PowerAlert current_power threshold inp.now]
          else []
        | _, _ => [])
    | .error e =>
      (none, [.MonitoringError ("Failed to query power profile: " ++ e) inp.now])
  else (none, [])

/-- All events synthesized by one tick, in push order: the three category
sections followed by the unconditional `MetricsUpdate` (monitoring.rs
lines 274-350). -/
def tickEvents {HW : Type} (config : MonitoringConfig) (inp : TickInput HW) :
    List (MonitoringEvent HW) :=
  (hardwareStep config inp).2 ++ (thermalStep config inp).2 ++
    (powerStep config inp).2 ++
    [.MetricsUpdate (hardwareStep config inp).1 (thermalStep config inp).1
      (powerStep config inp).1 inp.now]

/-- Per-kind stats counting over one tick's events (monitoring.rs
lines 380-388). -/
def countEvents {HW : Type} (stats : MonitoringStats)
    (events : List (MonitoringEvent HW)) : MonitoringStats :=
  events.foldl
    (fun st event =>
      match event with
      | .ThermalAlert _ _ _ _ => { st with thermal_alerts := st.thermal_alerts + 1 }
      | .PowerAlert _ _ _ => { st with power_alerts := st.power_alerts + 1 }
      | .HardwareChanged _ _ _ =>
        { st with hardware_changes := st.hardware_changes + 1 }
      | .MonitoringError _ _ => { st with errors := st.errors + 1 }
      | .MetricsUpdate _ _ _ _ => st)
    stats

/-- Statistics update at the end of one tick (monitoring.rs lines 375-403):
bump counters, record the tick duration into the rolling window of at most
100 entries, and recompute the average update interval.  Returns the new
stats and the new window. -/
def updateStats {HW : Type} (stats : MonitoringStats)
    (events : List (MonitoringEvent HW)) (now : Nat) (update_times : List Nat)
    (update_duration : Nat) : MonitoringStats × List Nat :=
  let stats := { stats with total_events := stats.total_events + events.length }
  let stats := countEvents stats events
  let stats := { stats with last_update := now }
  let update_times := update_times ++ [update_duration]
  let update_times :=
    if 100 < update_times.length then update_times.drop 1 else update_times
  let stats :=
    if update_times.isEmpty then stats
    else { stats with
            average_update_interval := update_times.sum / update_times.length }
  (stats, update_times)

/-- The mutable state touched by the spawned monitoring loop task: the shared
stats and cached snapshots, plus the task-local rolling window of tick
durations (`update_times`). -/
structure LoopState (HW : Type) where
  stats : MonitoringStats
  update_times : List Nat
  last_hardware_info : Option HW
  last_thermal_info : Option ThermalInfo
  last_power_profile : Option PowerProfile

/-- One full iteration of the monitoring loop body (monitoring.rs
lines 270-404): synthesize events, refresh the caches for the categories
that were obtained (failed categories keep the previous cached value),
dispatch, and update the statistics.  Returns the new loop state and the
events dispatched this tick, in dispatch order. -/
def runTick {HW : Type} (config : MonitoringConfig) (lst : LoopState HW)
    (inp : TickInput HW) : LoopState HW × List (MonitoringEvent HW) :=
  let hardware_info := (hardwareStep config inp).1
  let thermal_info := (thermalStep config inp).1
  let power_profile := (powerStep config inp).1
  let events := tickEvents config inp
  let last_hardware_info :=
    match hardware_info with
    | some info => some info
    | none => lst.last_hardware_info
  let last_thermal_info :=
    match thermal_info with
    | some info => some info
    | none => lst.last_thermal_info
  let last_power_profile :=
    match power_profile with
    | some profile => some profile
    | none => lst.last_power_profile
  let statsAndTimes :=
    updateStats lst.stats events inp.now lst.update_times inp.tick_duration
  ({ stats := statsAndTimes.1
     update_times := statsAndTimes.2
     last_hardware_info := last_hardware_info
     last_thermal_info := last_thermal_info
     last_power_profile := last_power_profile },
   events)

/-- Run the monitoring loop over a finite list of tick inputs, collecting the
dispatched events in order.  Each tick is processed unconditionally: no
provider failure terminates the loop. -/
def runTicks {HW : Type} (config : MonitoringConfig) (lst : LoopState HW) :
    List (TickInput HW) → LoopState HW × List (MonitoringEvent HW)
  | [] => (lst, [])
  | inp :: rest =>
    let stepped := runTick config lst inp
    let next := runTicks config stepped.1 rest
    (next.1, stepped.2 ++ next.2)

/-- Whether an event is a `MetricsUpdate`. -/
def isMetricsUpdate {HW : Type} : MonitoringEvent HW → Bool
  | .MetricsUpdate _ _ _ _ => true
  | _ => false

/-- Whether an event is a `MonitoringError`. -/
def isMonitoringError {HW : Type} : MonitoringEvent HW → Bool
  | .MonitoringError _ _ => true
  | _ => false

/-- Whether an event is a `ThermalAlert`. -/
def isThermalAlert {HW : Type} : MonitoringEvent HW → Bool
  | .ThermalAlert _ _ _ _ => true
  | _ => false

/-- Slope estimate for one sensor as the specification words it: newest
reading minus third-newest reading, over two.  (The newest reading is the
last history entry; the third-newest is three places from the end.) -/
def specSlope (s : ThermalSensor) : ℚ :=
  ((s.temperature_history.getD (s.temperature_history.length - 1)
      { temperature := 0, timestamp := 0 }).temperature -
    (s.temperature_history.getD (s.temperature_history.length - 3)
      { temperature := 0, timestamp := 0 }).temperature) / 2

/-- Fold a sequence of `(temperature, timestamp)` recording calls over a
thermal state via `update_sensor_history`, all targeting one sensor name. -/
def applyReadings (t : ThermalInfo) (sensor_name : String)
    (rs : List (ℚ × Nat)) : ThermalInfo :=
  rs.foldl (fun acc r => acc.update_sensor_history sensor_name r.1 r.2) t

/-- Fold a sequence of recording calls over a single sensor. -/
def applySensorReadings (s : ThermalSensor) (rs : List (ℚ × Nat)) :
    ThermalSensor :=
  rs.foldl (fun acc r => acc.recordReading r.1 r.2) s

/-- Package a `(temperature, timestamp)` pair as a reading. -/
def mkReading (r : ℚ × Nat) : TemperatureReading :=
  { temperature := r.1, timestamp := r.2 }

/-- Example sensor with empty history, used as a concrete instance. -/
def fifoSensorEx : ThermalSensor where
  name := "cpu0"
  temperature := 0
  critical_temperature := none
  max_temperature := none
  sensor_type := "CPU"
  temperature_history := []

/-- Example thermal state holding exactly `fifoSensorEx`. -/
def fifoInfoEx : ThermalInfo where
  sensors := [fifoSensorEx]
  fans := []
  thermal_status := .Unknown
  ambient_temperature := none
  tdp_info := none

/-- Twelve concrete recording calls, more than the history capacity. -/
def fifoReadings : List (ℚ × Nat) :=
  (List.range 12).map fun (i : Nat) => ((i : ℚ), i)

/-- Example power profile with no measured draw. -/
def powerProfileEx : PowerProfile where
  total_power_draw := none
  cpu_power := none
  gpu_power := none
  memory_power := none
  storage_power := none
  network_power := none
  other_power := none
  efficiency_score := 1
  thermal_throttling_risk := .None
  power_state := .Unknown
  available_power_modes := []

/-- Default configuration with the thermal threshold lowered to 70. -/
def tickCfg70 : MonitoringConfig :=
  { MonitoringConfig.default with thermal_threshold := 70 }

/-- Example sensor reading 75 degrees. -/
def sensor75 : ThermalSensor := { fifoSensorEx with temperature := 75 }

/-- Example sensor reading 65 degrees. -/
def sensor65 : ThermalSensor := { fifoSensorEx with temperature := 65 }

/-- Thermal snapshot whose only sensor reads 75 degrees. -/
def thermalInfo75 : ThermalInfo := { fifoInfoEx with sensors := [sensor75] }

/-- Thermal snapshot whose only sensor reads 65 degrees. -/
def thermalInfo65 : ThermalInfo := { fifoInfoEx with sensors := [sensor65] }

/-- Tick input whose thermal snapshot reads 75 degrees; other queries succeed. -/
def tickInp75 : TickInput Unit where
  hardware_result := .ok ()
  thermal_result := .ok thermalInfo75
  power_result := .ok powerProfileEx
  now := 5
  tick_duration := 1

/-- Tick input whose thermal snapshot reads 65 degrees; other queries succeed. -/
def tickInp65 : TickInput Unit where
  hardware_result := .ok ()
  thermal_result := .ok thermalInfo65
  power_result := .ok powerProfileEx
  now := 5
  tick_duration := 1

/-- Tick input whose thermal query fails; other queries succeed. -/
def tickInpErr : TickInput Unit where
  hardware_result := .ok ()
  thermal_result := .error "boom"
  power_result := .ok powerProfileEx
  now := 9
  tick_duration := 1

/-- Tick input whose hardware query fails; other queries succeed. -/
def tickInpHwErr : TickInput Unit where
  hardware_result := .error "hw boom"
  thermal_result := .ok thermalInfo65
  power_result := .ok powerProfileEx
  now := 11
  tick_duration := 1

/-- Tick input whose power query fails; other queries succeed. -/
def tickInpPwErr : TickInput Unit where
  hardware_result := .ok ()
  thermal_result := .ok thermalInfo65
  power_result := .error "pw boom"
  now := 13
  tick_duration := 1

/-- All-zero statistics record. -/
def statsZero : MonitoringStats where
  total_events := 0
  thermal_alerts := 0
  power_alerts := 0
  hardware_changes := 0
  errors := 0
  uptime := 0
  last_update := 0
  average_update_interval := 0

/-- Example loop state with a previously cached thermal snapshot. -/
def loopStateEx : LoopState Unit where
  stats := statsZero
  update_times := []
  last_hardware_info := none
  last_thermal_info := some thermalInfo65
  last_power_profile := none

/-- Example monitor whose loop is already running. -/
def runningMonitorEx : MonitorState Unit :=
  { with_config Unit MonitoringConfig.default 0 0 with running := true }

section Theorems

/-- Reading an in-bounds index of a list with a default gives the element. -/
lemma getD_of_lt {α : Type} (l : List α) (i : Nat) (d : α) (h : i < l.length) :
    l.getD i d = l[i] := by
  simp [List.getD_eq_getElem?_getD, List.getElem?_eq_getElem h]

/-- The slope computed by `calculate_temperature_trend` from the reversed
three-element window equals `specSlope` for a qualifying sensor. -/
lemma codeSlope_eq_specSlope (s : ThermalSensor)
    (h : 3 ≤ s.temperature_history.length) :
    (((s.temperature_history.reverse.take 3).map (·.temperature)).getD 0 0 -
      ((s.temperature_history.reverse.take 3).map (·.temperature)).getD 2 0) / 2 =
      specSlope s := by
  set L := s.temperature_history with hL
  have hlen : L.length = s.temperature_history.length := rfl
  have hrev : L.reverse.length = L.length := by simp
  have htake : (L.reverse.take 3).length = 3 := by
    simp [List.length_take]
    omega
  have hmap : ((L.reverse.take 3).map (·.temperature)).length = 3 := by
    rw [List.length_map]
    exact htake
  have h0 : (((L.reverse.take 3).map (·.temperature))).getD 0 0 =
      (L.getD (L.length - 1) { temperature := 0, timestamp := 0 }).temperature := by
    rw [getD_of_lt _ _ _ (by omega : 0 < ((L.reverse.take 3).map (·.temperature)).length)]
    rw [getD_of_lt _ _ _ (by omega : L.length - 1 < L.length)]
    simp only [List.getElem_map, List.getElem_take, List.getElem_reverse]
    congr 1
  have h2 : (((L.reverse.take 3).map (·.temperature))).getD 2 0 =
      (L.getD (L.length - 3) { temperature := 0, timestamp := 0 }).temperature := by
    rw [getD_of_lt _ _ _ (by omega : 2 < ((L.reverse.take 3).map (·.temperature)).length)]
    rw [getD_of_lt _ _ _ (by omega : L.length - 3 < L.length)]
    simp only [List.getElem_map, List.getElem_take, List.getElem_reverse]
    congr 1
  rw [h0, h2]
  rfl

/-- The accumulator of the trend fold collects the sum of `specSlope` over
qualifying sensors and their count. -/
lemma trend_foldl_eq (sensors : List ThermalSensor) (a : ℚ) (n : Nat) :
    sensors.foldl
      (fun (acc : ℚ × Nat) sensor =>
        if 3 ≤ sensor.temperature_history.length then
          let recent_temps := (sensor.temperature_history.reverse.take 3).map
            (·.temperature)
          let trend := (recent_temps.getD 0 0 - recent_temps.getD 2 0) / 2
          (acc.1 + trend, acc.2 + 1)
        else acc)
      (a, n) =
    (a + ((sensors.filter fun s => 3 ≤ s.temperature_history.length).map
        specSlope).sum,
      n + (sensors.filter fun s => 3 ≤ s.temperature_history.length).length) := by
  induction sensors generalizing a n with
  | nil => simp
  | cons s rest ih =>
    by_cases h : 3 ≤ s.temperature_history.length
    · rw [List.foldl_cons, if_pos h,
        List.filter_cons_of_pos (by simpa using h)]
      rw [ih]
      rw [codeSlope_eq_specSlope s h]
      simp
      constructor
      · ring
      · omega
    · rw [List.foldl_cons, if_neg h,
        List.filter_cons_of_neg (by simpa using h)]
      exact ih a n

/-- C6: the temperature trend is the average of (newest − third-newest)/2
over all sensors with at least 3 recorded history readings; sensors with
fewer than 3 readings are excluded, and the result is 0 when no sensor
qualifies. -/
theorem trend_is_average_of_qualifying_slopes (t : ThermalInfo) :
    t.calculate_temperature_trend =
      if (t.sensors.filter fun s => 3 ≤ s.temperature_history.length).isEmpty
      then 0
      else ((t.sensors.filter fun s =>
            3 ≤ s.temperature_history.length).map specSlope).sum /
          ((t.sensors.filter fun s =>
            3 ≤ s.temperature_history.length).length : ℚ) := by
  unfold ThermalInfo.calculate_temperature_trend
  rw [show ((0 : ℚ), (0 : Nat)) = ((0 : ℚ × Nat).1, (0 : ℚ × Nat).2) from rfl]
  rw [trend_foldl_eq]
  rcases hq : t.sensors.filter fun s => 3 ≤ s.temperature_history.length with _ | ⟨s, rest⟩
  · simp [hq]
  · simp [hq, List.isEmpty]

/-- C5: for every thermal state and workload intensity,
`predict_thermal_throttling` projects
`projected_max = current_max + workload_intensity * 10 + trend`;
`will_throttle` iff `projected_max ≥ 90`; `time_to_throttle` is
`(90 − current_max)/trend` minutes (converted to seconds, floored at zero)
exactly when throttling is predicted and the trend is positive, else none;
severity buckets `projected_max` as <80 → None, [80,85) → Light,
[85,90) → Moderate, [90,95) → Heavy, ≥95 → Severe; confidence is 0.8 when
`|trend| > 2` and 0.6 otherwise. -/
theorem predict_thermal_throttling_spec (t : ThermalInfo)
    (workload_intensity : ℚ) :
    ((t.predict_thermal_throttling workload_intensity).will_throttle = true ↔
        90 ≤ t.max_temperature.getD 0 + workload_intensity * 10 +
          t.calculate_temperature_trend) ∧
    (t.predict_thermal_throttling workload_intensity).time_to_throttle =
      (if 90 ≤ t.max_temperature.getD 0 + workload_intensity * 10 +
            t.calculate_temperature_trend ∧ 0 < t.calculate_temperature_trend
       then
        some (Int.toNat (Int.floor
          (max ((90 - t.max_temperature.getD 0) /
            t.calculate_temperature_trend * 60) 0)))
       else none) ∧
    (t.predict_thermal_throttling workload_intensity).severity =
      (if t.max_temperature.getD 0 + workload_intensity * 10 +
            t.calculate_temperature_trend < 80 then .None
       else if t.max_temperature.getD 0 + workload_intensity * 10 +
            t.calculate_temperature_trend < 85 then .Light
       else if t.max_temperature.getD 0 + workload_intensity * 10 +
            t.calculate_temperature_trend < 90 then .Moderate
       else if t.max_temperature.getD 0 + workload_intensity * 10 +
            t.calculate_temperature_trend < 95 then .Heavy
       else .Severe) ∧
    (t.predict_thermal_throttling workload_intensity).confidence =
      (if 2 < |t.calculate_temperature_trend| then 0.8 else 0.6) := by
  set pm := t.max_temperature.getD 0 + workload_intensity * 10 +
    t.calculate_temperature_trend with hpm
  have h1 : (t.predict_thermal_throttling workload_intensity).will_throttle =
      decide (90 ≤ pm) := rfl
  have h2 : (t.predict_thermal_throttling workload_intensity).time_to_throttle =
      if decide (90 ≤ pm) = true ∧ 0 < t.calculate_temperature_trend then
        some (Int.toNat (Int.floor
          (max ((90 - t.max_temperature.getD 0) /
            t.calculate_temperature_trend * 60) 0)))
      else none := rfl
  have h3 : (t.predict_thermal_throttling workload_intensity).severity =
      if (95 : ℚ) ≤ pm then ThrottlingSeverity.Severe
      else if (90 : ℚ) ≤ pm then ThrottlingSeverity.Heavy
      else if (85 : ℚ) ≤ pm then ThrottlingSeverity.Moderate
      else if (80 : ℚ) ≤ pm then ThrottlingSeverity.Light
      else ThrottlingSeverity.None := rfl
  have h4 : (t.predict_thermal_throttling workload_intensity).confidence =
      if 2 < |t.calculate_temperature_trend| then (0.8 : ℚ) else 0.6 := rfl
  refine ⟨?_, ?_, ?_, ?_⟩
  · rw [h1]
    simp
  · rw [h2]
    simp
  · rw [h3]
    split_ifs <;> first | rfl | (exfalso; linarith)
  · rw [h4]

/-- One recording step keeps the history equal to the suffix of the appended
sequence that fits in ten entries. -/
lemma recordReading_history (s : ThermalSensor) (temp : ℚ) (now : Nat)
    (hlen : s.temperature_history.length ≤ 10) :
    (s.recordReading temp now).temperature_history =
      (s.temperature_history ++
        [({ temperature := temp, timestamp := now } : TemperatureReading)]).drop
        (s.temperature_history.length + 1 - 10) := by
  unfold ThermalSensor.recordReading
  by_cases h : 10 < (s.temperature_history ++
      [({ temperature := temp, timestamp := now } : TemperatureReading)]).length
  · simp only [if_pos h]
    congr 1
    simp at h
    omega
  · simp only [if_neg h]
    simp at h
    rw [show s.temperature_history.length + 1 - 10 = 0 by omega, List.drop_zero]

/-- Folding recording calls over one sensor keeps the history equal to the
at-most-ten-entry suffix of the full appended reading sequence. -/
lemma applySensorReadings_history (rs : List (ℚ × Nat)) (s : ThermalSensor)
    (hlen : s.temperature_history.length ≤ 10) :
    (applySensorReadings s rs).temperature_history =
      (s.temperature_history ++ rs.map mkReading).drop
        (s.temperature_history.length + rs.length - 10) := by
  induction rs generalizing s with
  | nil =>
    show s.temperature_history = _
    simp only [List.map_nil, List.append_nil, List.length_nil, Nat.add_zero]
    rw [show s.temperature_history.length - 10 = 0 by omega, List.drop_zero]
  | cons r rest ih =>
    have hstep := recordReading_history s r.1 r.2 hlen
    have hlen' : (s.recordReading r.1 r.2).temperature_history.length ≤ 10 := by
      rw [hstep]
      simp
      omega
    have happ : applySensorReadings s (r :: rest) =
        applySensorReadings (s.recordReading r.1 r.2) rest := rfl
    rw [happ, ih _ hlen', hstep]
    rw [List.length_drop, List.length_append]
    rw [← List.drop_append_of_le_length (by simp; omega)]
    rw [List.drop_drop]
    rw [List.append_assoc]
    have hx : ([({ temperature := r.1, timestamp := r.2 } : TemperatureReading)] ++
        rest.map mkReading) = (r :: rest).map mkReading := by
      simp [mkReading]
    rw [hx]
    congr 1
    simp
    omega

/-- Recording a reading on one sensor preserves its name. -/
lemma recordReading_name (s : ThermalSensor) (temp : ℚ) (now : Nat) :
    (s.recordReading temp now).name = s.name := rfl

/-- On a thermal state holding exactly one sensor with the targeted name,
folding `update_sensor_history` reduces to folding the per-sensor recording
step. -/
lemma applyReadings_sensors_single (rs : List (ℚ × Nat)) (t : ThermalInfo)
    (s : ThermalSensor) (sensor_name : String)
    (hs : t.sensors = [s]) (hn : s.name = sensor_name) :
    (applyReadings t sensor_name rs).sensors = [applySensorReadings s rs] := by
  induction rs generalizing t s with
  | nil => simpa [applyReadings, applySensorReadings] using hs
  | cons r rest ih =>
    have h1 : (t.update_sensor_history sensor_name r.1 r.2).sensors =
        [s.recordReading r.1 r.2] := by
      simp [ThermalInfo.update_sensor_history, hs, updateFirstMatching, hn]
    have happ : applyReadings t sensor_name (r :: rest) =
        applyReadings (t.update_sensor_history sensor_name r.1 r.2) sensor_name
          rest := rfl
    rw [happ, ih (t.update_sensor_history sensor_name r.1 r.2)
      (s.recordReading r.1 r.2) h1 (by rw [recordReading_name]; exact hn)]
    rfl

/-- C7: over any sequence of history-recording calls on one sensor, the
history length never exceeds ten, eviction is FIFO, and the history is
exactly the suffix of the most recent at most ten readings in time order
(newest appended last).  Quantifying over every call sequence `rs` covers
every intermediate state (each prefix is such a sequence). -/
theorem sensor_history_bounded_fifo (t : ThermalInfo) (sensor_name : String)
    (s : ThermalSensor) (rs : List (ℚ × Nat))
    (hs : t.sensors = [s]) (hn : s.name = sensor_name)
    (hhist : s.temperature_history = []) :
    (applyReadings t sensor_name rs).sensors = [applySensorReadings s rs] ∧
    (applySensorReadings s rs).temperature_history =
      (rs.map mkReading).drop (rs.length - 10) ∧
    (applySensorReadings s rs).temperature_history.length ≤ 10 := by
  refine ⟨applyReadings_sensors_single rs t s sensor_name hs hn, ?_, ?_⟩
  · rw [applySensorReadings_history rs s (by rw [hhist]; simp), hhist]
    simp
  · rw [applySensorReadings_history rs s (by rw [hhist]; simp), hhist]
    simp
    omega

/-- Witness for C7 at a concrete input: after twelve recording calls on a
fresh sensor the history holds exactly the last ten readings. -/
theorem sensor_history_bounded_fifo_witness :
    (applyReadings fifoInfoEx "cpu0" fifoReadings).sensors.map
        (fun s => s.temperature_history.length) = [10] ∧
    (applySensorReadings fifoSensorEx fifoReadings).temperature_history =
      (fifoReadings.map mkReading).drop 2 := by
  obtain ⟨h1, h2, h3⟩ := sensor_history_bounded_fifo fifoInfoEx "cpu0"
    fifoSensorEx fifoReadings rfl rfl rfl
  constructor
  · rw [h1]
    decide
  · rw [h2]
    decide

/-- Searching a sensor list for an absent name leaves the list untouched. -/
lemma updateFirstMatching_no_match (sensor_name : String) (temp : ℚ) (now : Nat)
    (l : List ThermalSensor) (h : ∀ s ∈ l, s.name ≠ sensor_name) :
    updateFirstMatching sensor_name temp now l = l := by
  induction l with
  | nil => rfl
  | cons s rest ih =>
    rw [updateFirstMatching, if_neg (h s (by simp)),
      ih fun x hx => h x (by simp [hx])]

/-- C10: calling `update_sensor_history` with a sensor name that matches no
existing sensor leaves the thermal state completely unchanged — no sensor is
created, no history entry is appended, and no current temperature moves. -/
theorem update_sensor_history_no_match (t : ThermalInfo) (sensor_name : String)
    (temperature : ℚ) (now : Nat)
    (h : ∀ s ∈ t.sensors, s.name ≠ sensor_name) :
    t.update_sensor_history sensor_name temperature now = t := by
  unfold ThermalInfo.update_sensor_history
  rw [updateFirstMatching_no_match _ _ _ _ h]

/-- Witness for C10 at a concrete input: updating an absent sensor name on a
one-sensor state is a no-op. -/
theorem update_sensor_history_no_match_witness :
    fifoInfoEx.update_sensor_history "gpu0" 99 7 = fifoInfoEx :=
  update_sensor_history_no_match fifoInfoEx "gpu0" 99 7 (by decide)

/-- Snapshot obtained by the hardware section: the query result when the
category is enabled, nothing otherwise. -/
lemma hardwareStep_fst {HW : Type} (config : MonitoringConfig)
    (inp : TickInput HW) :
    (hardwareStep config inp).1 =
      if config.enable_hardware then inp.hardware_result.toOption else none := by
  cases hc : config.enable_hardware <;> cases hr : inp.hardware_result <;>
    simp [hardwareStep, hc, hr, Except.toOption]

/-- Snapshot obtained by the thermal section. -/
lemma thermalStep_fst {HW : Type} (config : MonitoringConfig)
    (inp : TickInput HW) :
    (thermalStep config inp).1 =
      if config.enable_thermal then inp.thermal_result.toOption else none := by
  cases hc : config.enable_thermal <;> cases hr : inp.thermal_result <;>
    simp [thermalStep, hc, hr, Except.toOption]

/-- Snapshot obtained by the power section. -/
lemma powerStep_fst {HW : Type} (config : MonitoringConfig)
    (inp : TickInput HW) :
    (powerStep config inp).1 =
      if config.enable_power then inp.power_result.toOption else none := by
  cases hc : config.enable_power <;> cases hr : inp.power_result <;>
    simp [powerStep, hc, hr, Except.toOption]

/-- Every event pushed by the hardware section is a `MonitoringError` stamped
with the tick timestamp. -/
lemma mem_hardwareStep_snd {HW : Type} {config : MonitoringConfig}
    {inp : TickInput HW} {e : MonitoringEvent HW}
    (he : e ∈ (hardwareStep config inp).2) :
    ∃ msg, e = .MonitoringError msg inp.now := by
  cases hc : config.enable_hardware <;> cases hr : inp.hardware_result <;>
    simp [hardwareStep, hc, hr] at he
  exact ⟨_, he⟩

/-- Every event pushed by the thermal section is a `ThermalAlert` carrying the
configured threshold or a `MonitoringError`, stamped with the tick
timestamp. -/
lemma mem_thermalStep_snd {HW : Type} {config : MonitoringConfig}
    {inp : TickInput HW} {e : MonitoringEvent HW}
    (he : e ∈ (thermalStep config inp).2) :
    (∃ nm temp, e = .ThermalAlert nm temp config.thermal_threshold inp.now) ∨
      ∃ msg, e = .MonitoringError msg inp.now := by
  cases hc : config.enable_thermal <;> cases hr : inp.thermal_result <;>
    simp [thermalStep, hc, hr] at he
  · exact .inr ⟨_, he⟩
  · obtain ⟨sensor, _, _, heq⟩ := he
    exact .inl ⟨sensor.name, sensor.temperature, heq.symm⟩

/-- Every event pushed by the power section is a `PowerAlert` or a
`MonitoringError`, stamped with the tick timestamp. -/
lemma mem_powerStep_snd {HW : Type} {config : MonitoringConfig}
    {inp : TickInput HW} {e : MonitoringEvent HW}
    (he : e ∈ (powerStep config inp).2) :
    (∃ cp th, e = .PowerAlert cp th inp.now) ∨
      ∃ msg, e = .MonitoringError msg inp.now := by
  cases hc : config.enable_power <;> cases hr : inp.power_result <;>
    simp [powerStep, hc, hr] at he
  · exact .inr ⟨_, he⟩
  · rename_i profile
    rcases hd : profile.total_power_draw with _ | cp <;>
      rcases hth : config.power_threshold with _ | th <;>
        simp [hd, hth] at he
    exact .inl ⟨cp, th, he.2⟩

/-- One tick synthesizes exactly one `MetricsUpdate` event. -/
lemma tickEvents_countP_metricsUpdate {HW : Type} (config : MonitoringConfig)
    (inp : TickInput HW) :
    ((tickEvents config inp).countP fun e => isMetricsUpdate e) = 1 := by
  unfold tickEvents
  rw [List.countP_append, List.countP_append, List.countP_append]
  have h1 : ((hardwareStep config inp).2.countP fun e => isMetricsUpdate e) = 0 :=
    List.countP_eq_zero.mpr fun e he => by
      obtain ⟨msg, rfl⟩ := mem_hardwareStep_snd he
      simp [isMetricsUpdate]
  have h2 : ((thermalStep config inp).2.countP fun e => isMetricsUpdate e) = 0 :=
    List.countP_eq_zero.mpr fun e he => by
      rcases mem_thermalStep_snd he with ⟨nm, temp, rfl⟩ | ⟨msg, rfl⟩ <;>
        simp [isMetricsUpdate]
  have h3 : ((powerStep config inp).2.countP fun e => isMetricsUpdate e) = 0 :=
    List.countP_eq_zero.mpr fun e he => by
      rcases mem_powerStep_snd he with ⟨cp, th, rfl⟩ | ⟨msg, rfl⟩ <;>
        simp [isMetricsUpdate]
  rw [h1, h2, h3]
  simp [isMetricsUpdate]

/-- The events dispatched by `runTick` are exactly `tickEvents`. -/
lemma runTick_snd {HW : Type} (config : MonitoringConfig) (lst : LoopState HW)
    (inp : TickInput HW) : (runTick config lst inp).2 = tickEvents config inp := rfl

/-- Over any run the number of `MetricsUpdate` events equals the number of
ticks. -/
lemma runTicks_countP_metricsUpdate {HW : Type} (config : MonitoringConfig)
    (lst : LoopState HW) (inps : List (TickInput HW)) :
    ((runTicks config lst inps).2.countP fun e => isMetricsUpdate e) =
      inps.length := by
  induction inps generalizing lst with
  | nil => simp [runTicks]
  | cons inp rest ih =>
    show ((runTick config lst inp).2 ++
        (runTicks config (runTick config lst inp).1 rest).2).countP _ = _
    rw [List.countP_append, runTick_snd, tickEvents_countP_metricsUpdate, ih]
    simp [Nat.add_comm]

/-- The `MetricsUpdate` event of a tick carries exactly the snapshots that
were successfully obtained this tick and the tick timestamp. -/
lemma metricsUpdate_mem_tickEvents_iff {HW : Type} (config : MonitoringConfig)
    (inp : TickInput HW) (hw : Option HW) (th : Option ThermalInfo)
    (pw : Option PowerProfile) (ts : Nat) :
    MonitoringEvent.MetricsUpdate hw th pw ts ∈ tickEvents config inp ↔
      hw = (if config.enable_hardware then inp.hardware_result.toOption
            else none) ∧
      th = (if config.enable_thermal then inp.thermal_result.toOption
            else none) ∧
      pw = (if config.enable_power then inp.power_result.toOption else none) ∧
      ts = inp.now := by
  unfold tickEvents
  simp only [List.mem_append, List.mem_singleton]
  constructor
  · rintro (((h | h) | h) | h)
    · obtain ⟨msg, hh⟩ := mem_hardwareStep_snd h
      exact absurd hh (by simp)
    · rcases mem_thermalStep_snd h with ⟨nm, temp, hh⟩ | ⟨msg, hh⟩ <;>
        exact absurd hh (by simp)
    · rcases mem_powerStep_snd h with ⟨cp, thr, hh⟩ | ⟨msg, hh⟩ <;>
        exact absurd hh (by simp)
    · rw [MonitoringEvent.MetricsUpdate.injEq] at h
      obtain ⟨h1, h2, h3, h4⟩ := h
      exact ⟨by rw [h1, hardwareStep_fst], by rw [h2, thermalStep_fst],
        by rw [h3, powerStep_fst], h4⟩
  · rintro ⟨rfl, rfl, rfl, rfl⟩
    refine Or.inr ?_
    rw [MonitoringEvent.MetricsUpdate.injEq]
    exact ⟨(hardwareStep_fst config inp).symm, (thermalStep_fst config inp).symm,
      (powerStep_fst config inp).symm, rfl⟩

/-- C1: every tick of the monitoring loop synthesizes and dispatches exactly
one `MetricsUpdate` event, carrying exactly those snapshots that were
successfully obtained that tick (each independently optional) and the tick
timestamp; over any run the number of `MetricsUpdate` events received equals
the number of ticks, regardless of how many alert or error events also
fired. -/
theorem metricsUpdate_exactly_once_per_tick {HW : Type}
    (config : MonitoringConfig) (lst : LoopState HW)
    (inps : List (TickInput HW)) (inp : TickInput HW) (hw : Option HW)
    (th : Option ThermalInfo) (pw : Option PowerProfile) (ts : Nat) :
    ((runTicks config lst inps).2.countP fun e => isMetricsUpdate e) =
        inps.length ∧
      (MonitoringEvent.MetricsUpdate hw th pw ts ∈ tickEvents config inp ↔
        hw = (if config.enable_hardware then inp.hardware_result.toOption
              else none) ∧
        th = (if config.enable_thermal then inp.thermal_result.toOption
              else none) ∧
        pw = (if config.enable_power then inp.power_result.toOption
              else none) ∧
        ts = inp.now) :=
  ⟨runTicks_countP_metricsUpdate config lst inps,
    metricsUpdate_mem_tickEvents_iff config inp hw th pw ts⟩

/-- Under an enabled thermal category and a successful query, the thermal
section's events are the filtered alerts. -/
lemma thermalStep_snd_ok {HW : Type} (config : MonitoringConfig)
    (inp : TickInput HW) (info : ThermalInfo)
    (hen : config.enable_thermal = true)
    (hok : inp.thermal_result = Except.ok info) :
    (thermalStep config inp).2 =
      info.sensors.filterMap fun sensor =>
        if config.thermal_threshold ≤ sensor.temperature then
          some (.ThermalAlert sensor.name sensor.temperature
            config.thermal_threshold inp.now)
        else none := by
  simp [thermalStep, hen, hok]

/-- C2: on a tick with thermal sampling enabled and a successful thermal
query, a `ThermalAlert` is synthesized exactly for the sensors whose
temperature is at or above the configured threshold, carrying the sensor
name, its reading, the threshold, and the tick timestamp; no alert exists
for any temperature below the threshold. -/
theorem thermal_alert_iff_threshold {HW : Type} (config : MonitoringConfig)
    (inp : TickInput HW) (info : ThermalInfo) (nm : String) (temp thr : ℚ)
    (ts : Nat) (hen : config.enable_thermal = true)
    (hok : inp.thermal_result = Except.ok info) :
    MonitoringEvent.ThermalAlert nm temp thr ts ∈ tickEvents config inp ↔
      ts = inp.now ∧ thr = config.thermal_threshold ∧
        config.thermal_threshold ≤ temp ∧
        ∃ sensor ∈ info.sensors, sensor.name = nm ∧
          sensor.temperature = temp := by
  unfold tickEvents
  simp only [List.mem_append, List.mem_singleton]
  constructor
  · rintro (((h | h) | h) | h)
    · obtain ⟨msg, hh⟩ := mem_hardwareStep_snd h
      exact absurd hh (by simp)
    · rw [thermalStep_snd_ok config inp info hen hok, List.mem_filterMap] at h
      obtain ⟨sensor, hmem, hf⟩ := h
      by_cases hts : config.thermal_threshold ≤ sensor.temperature
      · rw [if_pos hts] at hf
        obtain hinj := Option.some.inj hf
        rw [MonitoringEvent.ThermalAlert.injEq] at hinj
        obtain ⟨hn, ht, hthr, hts'⟩ := hinj
        exact ⟨hts'.symm, hthr.symm, by rw [← ht]; exact hts,
          sensor, hmem, hn, ht⟩
      · rw [if_neg hts] at hf
        exact absurd hf (by simp)
    · rcases mem_powerStep_snd h with ⟨cp, th2, hh⟩ | ⟨msg, hh⟩ <;>
        exact absurd hh (by simp)
    · exact absurd h (by simp)
  · rintro ⟨rfl, rfl, hge, sensor, hmem, rfl, rfl⟩
    refine Or.inl (Or.inl (Or.inr ?_))
    rw [thermalStep_snd_ok config inp info hen hok, List.mem_filterMap]
    exact ⟨sensor, hmem, by rw [if_pos hge]⟩

/-- Witness for C2 at concrete inputs: with threshold 70, a sensor reading 75
yields the alert `temperature=75, threshold=70` that tick, while a sensor
reading 65 yields no such alert. -/
theorem thermal_alert_iff_threshold_witness :
    MonitoringEvent.ThermalAlert "cpu0" 75 70 5 ∈ tickEvents tickCfg70 tickInp75 ∧
    MonitoringEvent.ThermalAlert "cpu0" 65 70 5 ∉ tickEvents tickCfg70 tickInp65 := by
  constructor
  · exact (thermal_alert_iff_threshold tickCfg70 tickInp75 thermalInfo75 "cpu0"
      75 70 5 rfl rfl).mpr
      ⟨rfl, rfl, by norm_num [tickCfg70, MonitoringConfig.default],
        sensor75, by simp [thermalInfo75], rfl, rfl⟩
  · intro h
    obtain ⟨h1, h2, hge, h4⟩ := (thermal_alert_iff_threshold tickCfg70 tickInp65
      thermalInfo65 "cpu0" 65 70 5 rfl rfl).mp h
    norm_num [tickCfg70, MonitoringConfig.default] at hge

/-- When the hardware query succeeds, the hardware section pushes no event. -/
lemma hardwareStep_snd_ok {HW : Type} {config : MonitoringConfig}
    {inp : TickInput HW} {v : HW} (hok : inp.hardware_result = Except.ok v) :
    (hardwareStep config inp).2 = [] := by
  cases hc : config.enable_hardware <;> simp [hardwareStep, hc, hok]

/-- When the power query succeeds, every event of the power section is a
`PowerAlert`. -/
lemma mem_powerStep_snd_ok {HW : Type} {config : MonitoringConfig}
    {inp : TickInput HW} {pwv : PowerProfile}
    (hok : inp.power_result = Except.ok pwv) {e : MonitoringEvent HW}
    (he : e ∈ (powerStep config inp).2) :
    ∃ cp th, e = .PowerAlert cp th inp.now := by
  cases hc : config.enable_power <;> simp [powerStep, hc, hok] at he
  rcases hd : pwv.total_power_draw with _ | cp <;>
    rcases hth : config.power_threshold with _ | th <;> simp [hd, hth] at he
  exact ⟨cp, th, he.2⟩

/-- When the thermal query fails on an enabled thermal category, the thermal
section pushes exactly the one `MonitoringError` event. -/
lemma thermalStep_snd_error {HW : Type} {config : MonitoringConfig}
    {inp : TickInput HW} {err : String}
    (hen : config.enable_thermal = true)
    (herr : inp.thermal_result = Except.error err) :
    (thermalStep config inp).2 =
      [.MonitoringError ("Failed to query thermal info: " ++ err) inp.now] := by
  simp [thermalStep, hen, herr]

/-- When the thermal query fails, no thermal snapshot is obtained. -/
lemma thermalStep_fst_error {HW : Type} {config : MonitoringConfig}
    {inp : TickInput HW} {err : String}
    (herr : inp.thermal_result = Except.error err) :
    (thermalStep config inp).1 = none := by
  cases hc : config.enable_thermal <;> simp [thermalStep, hc, herr]

/-- The cached thermal snapshot after a tick follows the obtained snapshot,
keeping the previous value when none was obtained. -/
lemma runTick_last_thermal {HW : Type} (config : MonitoringConfig)
    (lst : LoopState HW) (inp : TickInput HW) :
    (runTick config lst inp).1.last_thermal_info =
      match (thermalStep config inp).1 with
      | some info => some info
      | none => lst.last_thermal_info := rfl

/-- Processing a tick never stops the run: `runTicks` over `inp :: rest`
always processes `rest` from the post-tick state and appends its events. -/
lemma runTicks_cons {HW : Type} (config : MonitoringConfig)
    (lst : LoopState HW) (inp : TickInput HW) (rest : List (TickInput HW)) :
    runTicks config lst (inp :: rest) =
      ((runTicks config (runTick config lst inp).1 rest).1,
        (runTick config lst inp).2 ++
          (runTicks config (runTick config lst inp).1 rest).2) := rfl

/-- When the hardware query fails on an enabled hardware category, the
hardware section pushes exactly the one `MonitoringError` event. -/
lemma hardwareStep_snd_error {HW : Type} {config : MonitoringConfig}
    {inp : TickInput HW} {err : String}
    (hen : config.enable_hardware = true)
    (herr : inp.hardware_result = Except.error err) :
    (hardwareStep config inp).2 =
      [.MonitoringError ("Failed to query hardware info: " ++ err) inp.now] := by
  simp [hardwareStep, hen, herr]

/-- When the hardware query fails, no hardware snapshot is obtained. -/
lemma hardwareStep_fst_error {HW : Type} {config : MonitoringConfig}
    {inp : TickInput HW} {err : String}
    (herr : inp.hardware_result = Except.error err) :
    (hardwareStep config inp).1 = none := by
  cases hc : config.enable_hardware <;> simp [hardwareStep, hc, herr]

/-- When the power query fails on an enabled power category, the power
section pushes exactly the one `MonitoringError` event. -/
lemma powerStep_snd_error {HW : Type} {config : MonitoringConfig}
    {inp : TickInput HW} {err : String}
    (hen : config.enable_power = true)
    (herr : inp.power_result = Except.error err) :
    (powerStep config inp).2 =
      [.MonitoringError ("Failed to query power profile: " ++ err) inp.now] := by
  simp [powerStep, hen, herr]

/-- When the power query fails, no power snapshot is obtained. -/
lemma powerStep_fst_error {HW : Type} {config : MonitoringConfig}
    {inp : TickInput HW} {err : String}
    (herr : inp.power_result = Except.error err) :
    (powerStep config inp).1 = none := by
  cases hc : config.enable_power <;> simp [powerStep, hc, herr]

/-- The cached hardware snapshot after a tick follows the obtained snapshot,
keeping the previous value when none was obtained. -/
lemma runTick_last_hardware {HW : Type} (config : MonitoringConfig)
    (lst : LoopState HW) (inp : TickInput HW) :
    (runTick config lst inp).1.last_hardware_info =
      match (hardwareStep config inp).1 with
      | some info => some info
      | none => lst.last_hardware_info := rfl

/-- The cached power snapshot after a tick follows the obtained snapshot,
keeping the previous value when none was obtained. -/
lemma runTick_last_power {HW : Type} (config : MonitoringConfig)
    (lst : LoopState HW) (inp : TickInput HW) :
    (runTick config lst inp).1.last_power_profile =
      match (powerStep config inp).1 with
      | some profile => some profile
      | none => lst.last_power_profile := rfl

/-- The hardware section pushes one `MonitoringError` exactly when the
category is enabled and its query failed. -/
lemma hardwareStep_countP_error {HW : Type} (config : MonitoringConfig)
    (inp : TickInput HW) :
    ((hardwareStep config inp).2.countP fun e => isMonitoringError e) =
      if config.enable_hardware = true ∧ inp.hardware_result.toOption.isNone = true
      then 1 else 0 := by
  cases hc : config.enable_hardware <;> cases hr : inp.hardware_result <;>
    simp [hardwareStep, hc, hr, isMonitoringError, Except.toOption]

/-- The thermal section pushes one `MonitoringError` exactly when the
category is enabled and its query failed. -/
lemma thermalStep_countP_error {HW : Type} (config : MonitoringConfig)
    (inp : TickInput HW) :
    ((thermalStep config inp).2.countP fun e => isMonitoringError e) =
      if config.enable_thermal = true ∧ inp.thermal_result.toOption.isNone = true
      then 1 else 0 := by
  cases hc : config.enable_thermal <;> cases hr : inp.thermal_result
  · simp [thermalStep, hc, hr, Except.toOption]
  · simp [thermalStep, hc, hr, Except.toOption]
  · simp [thermalStep, hc, hr, isMonitoringError, Except.toOption]
  · have h0 : ((thermalStep config inp).2.countP fun e => isMonitoringError e)
        = 0 :=
      List.countP_eq_zero.mpr fun e he => by
        rcases mem_thermalStep_snd he with ⟨nm, temp, rfl⟩ | ⟨msg, heq⟩
        · simp [isMonitoringError]
        · rw [heq] at he
          rw [thermalStep_snd_ok config inp _ hc hr, List.mem_filterMap] at he
          obtain ⟨sensor, _, hf⟩ := he
          by_cases hts : config.thermal_threshold ≤ sensor.temperature
          · rw [if_pos hts] at hf
            exact absurd (Option.some.inj hf) (by simp)
          · rw [if_neg hts] at hf
            exact absurd hf (by simp)
    rw [h0]
    simp [hr, Except.toOption]

/-- The power section pushes one `MonitoringError` exactly when the category
is enabled and its query failed. -/
lemma powerStep_countP_error {HW : Type} (config : MonitoringConfig)
    (inp : TickInput HW) :
    ((powerStep config inp).2.countP fun e => isMonitoringError e) =
      if config.enable_power = true ∧ inp.power_result.toOption.isNone = true
      then 1 else 0 := by
  cases hc : config.enable_power <;> cases hr : inp.power_result
  · simp [powerStep, hc, hr, Except.toOption]
  · simp [powerStep, hc, hr, Except.toOption]
  · simp [powerStep, hc, hr, isMonitoringError, Except.toOption]
  · have h0 : ((powerStep config inp).2.countP fun e => isMonitoringError e)
        = 0 :=
      List.countP_eq_zero.mpr fun e he => by
        obtain ⟨cp, th, rfl⟩ := mem_powerStep_snd_ok hr he
        simp [isMonitoringError]
    rw [h0]
    simp [hr, Except.toOption]

/-- C3: whenever a per-category provider query (hardware, thermal, or power)
fails during a tick, the loop synthesizes a `MonitoringError` event carrying
that category's failure description instead of terminating; the cached last
snapshot for the failed category is left unchanged (so pull accessors keep
returning the previous value); the tick's `MonitoringError` count is exactly
the number of enabled categories whose query failed; and the run continues
with the remaining ticks unconditionally. -/
theorem provider_failure_degrades {HW : Type} (config : MonitoringConfig)
    (lst : LoopState HW) (inp : TickInput HW) (rest : List (TickInput HW)) :
    (∀ err : String, config.enable_hardware = true →
      inp.hardware_result = Except.error err →
      MonitoringEvent.MonitoringError ("Failed to query hardware info: " ++ err)
          inp.now ∈ (runTick config lst inp).2 ∧
        (runTick config lst inp).1.last_hardware_info =
          lst.last_hardware_info) ∧
    (∀ err : String, config.enable_thermal = true →
      inp.thermal_result = Except.error err →
      MonitoringEvent.MonitoringError ("Failed to query thermal info: " ++ err)
          inp.now ∈ (runTick config lst inp).2 ∧
        (runTick config lst inp).1.last_thermal_info =
          lst.last_thermal_info) ∧
    (∀ err : String, config.enable_power = true →
      inp.power_result = Except.error err →
      MonitoringEvent.MonitoringError ("Failed to query power profile: " ++ err)
          inp.now ∈ (runTick config lst inp).2 ∧
        (runTick config lst inp).1.last_power_profile =
          lst.last_power_profile) ∧
    ((runTick config lst inp).2.countP fun e => isMonitoringError e) =
      ((if config.enable_hardware = true ∧ inp.hardware_result.toOption.isNone = true
        then 1 else 0) +
       (if config.enable_thermal = true ∧ inp.thermal_result.toOption.isNone = true
        then 1 else 0) +
       (if config.enable_power = true ∧ inp.power_result.toOption.isNone = true
        then 1 else 0)) ∧
    runTicks config lst (inp :: rest) =
      ((runTicks config (runTick config lst inp).1 rest).1,
        (runTick config lst inp).2 ++
          (runTicks config (runTick config lst inp).1 rest).2) := by
  refine ⟨?_, ?_, ?_, ?_, runTicks_cons config lst inp rest⟩
  · intro err hen herr
    constructor
    · rw [runTick_snd]
      unfold tickEvents
      simp only [List.mem_append, List.mem_singleton]
      exact Or.inl (Or.inl (Or.inl
        (by rw [hardwareStep_snd_error hen herr]; simp)))
    · rw [runTick_last_hardware, hardwareStep_fst_error herr]
  · intro err hen herr
    constructor
    · rw [runTick_snd]
      unfold tickEvents
      simp only [List.mem_append, List.mem_singleton]
      exact Or.inl (Or.inl (Or.inr
        (by rw [thermalStep_snd_error hen herr]; simp)))
    · rw [runTick_last_thermal, thermalStep_fst_error herr]
  · intro err hen herr
    constructor
    · rw [runTick_snd]
      unfold tickEvents
      simp only [List.mem_append, List.mem_singleton]
      exact Or.inl (Or.inr (by rw [powerStep_snd_error hen herr]; simp))
    · rw [runTick_last_power, powerStep_fst_error herr]
  · rw [runTick_snd]
    unfold tickEvents
    rw [List.countP_append, List.countP_append, List.countP_append]
    rw [hardwareStep_countP_error, thermalStep_countP_error,
      powerStep_countP_error]
    simp [isMonitoringError]

/-- Witness for C3 at concrete inputs: a failing thermal, hardware, or power
query on an otherwise healthy tick emits the matching `MonitoringError`
(exactly one that tick) and preserves the failed category's cached
snapshot. -/
theorem provider_failure_degrades_witness :
    (MonitoringEvent.MonitoringError ("Failed to query thermal info: " ++ "boom")
        9 ∈ (runTick tickCfg70 loopStateEx tickInpErr).2 ∧
      (runTick tickCfg70 loopStateEx tickInpErr).1.last_thermal_info =
        some thermalInfo65) ∧
    ((runTick tickCfg70 loopStateEx tickInpErr).2.countP
        fun e => isMonitoringError e) = 1 ∧
    (MonitoringEvent.MonitoringError
        ("Failed to query hardware info: " ++ "hw boom") 11
        ∈ (runTick tickCfg70 loopStateEx tickInpHwErr).2 ∧
      (runTick tickCfg70 loopStateEx tickInpHwErr).1.last_hardware_info =
        none) ∧
    (MonitoringEvent.MonitoringError
        ("Failed to query power profile: " ++ "pw boom") 13
        ∈ (runTick tickCfg70 loopStateEx tickInpPwErr).2 ∧
      (runTick tickCfg70 loopStateEx tickInpPwErr).1.last_power_profile =
        none) := by
  refine ⟨?_, ?_, ?_, ?_⟩
  · have h := (provider_failure_degrades tickCfg70 loopStateEx tickInpErr
      []).2.1 "boom" rfl rfl
    exact ⟨h.1, h.2⟩
  · have h := (provider_failure_degrades tickCfg70 loopStateEx tickInpErr
      []).2.2.2.1
    rw [h]
    decide
  · have h := (provider_failure_degrades tickCfg70 loopStateEx tickInpHwErr
      []).1 "hw boom" rfl rfl
    exact ⟨h.1, h.2⟩
  · have h := (provider_failure_degrades tickCfg70 loopStateEx tickInpPwErr
      []).2.2.1 "pw boom" rfl rfl
    exact ⟨h.1, h.2⟩

/-- C4: calling `start_monitoring` while the monitor is already running
returns the "already running" configuration error and performs no side
effect: the returned state is the unchanged input state (so the running flag
stays true and stats, callbacks and cached snapshots are untouched), no loop
task is spawned, and no event is emitted. -/
theorem start_monitoring_already_running {HW : Type} (m : MonitorState HW)
    (h : m.running = true) :
    start_monitoring m =
      (Except.error
          (HardwareQueryError.InvalidConfiguration "Monitoring is already running"),
        m, false, []) := by
  unfold start_monitoring
  simp [h]

/-- Witness for C4 at a concrete input: a running monitor rejects a second
start verbatim. -/
theorem start_monitoring_already_running_witness :
    start_monitoring runningMonitorEx =
      (Except.error
          (HardwareQueryError.InvalidConfiguration "Monitoring is already running"),
        runningMonitorEx, false, []) :=
  start_monitoring_already_running runningMonitorEx rfl

/-- C9 (amended): the `uptime` of the stats returned by `get_stats` is
computed on demand as `now` minus the monitor's construction instant (the
`start_time` recorded by `with_config`), not incrementally accumulated and
not affected by the stored stats or by when `start_monitoring` was called
(`start_monitoring` does not touch `start_time`). -/
theorem get_stats_uptime_on_demand {HW : Type} (m : MonitorState HW)
    (config : MonitoringConfig) (i s now : Nat) (st : MonitoringStats) :
    (get_stats m now).uptime = now - m.start_time ∧
    (get_stats { m with stats := st } now).uptime = now - m.start_time ∧
    (start_monitoring m).2.1.start_time = m.start_time ∧
    (with_config HW config i s).start_time = i := by
  refine ⟨rfl, rfl, ?_, rfl⟩
  unfold start_monitoring
  by_cases h : m.running <;> simp [h]

/-- Counterexample for C9 as stated: a monitor constructed at instant 0
whose loop is started by `start_monitoring` at instant 5 (the call records
no time) reports, at instant 12, an uptime of 12 — `now` minus the
construction instant — not 7 = `now` minus the loop start instant the claim
names. -/
theorem get_stats_uptime_not_loop_start :
    (get_stats (start_monitoring
        (with_config Unit MonitoringConfig.default 0 0)).2.1 12).uptime = 12 ∧
    (12 : Nat) - 5 ≠ 12 := by
  constructor
  · rfl
  · decide

/-- C8 (code behaviour at the failing input): the handlers supplied to
`on_thermal_threshold` and `on_power_threshold` are never invoked — the
registered closures filter by event variant and threshold but their bodies
perform no invocation, so dispatching a matching `ThermalAlert` (75 ≥ 70) or
`PowerAlert` (150 ≥ 100) through the registered callbacks produces no
user-handler invocation at all. -/
theorem threshold_callbacks_never_invoked :
    dispatchToCallbacks
        (on_thermal_threshold (with_config Unit MonitoringConfig.default 0 0) 70
          fun info => [Invocation.thermalHandler "user" info]).callbacks
        (MonitoringEvent.ThermalAlert "cpu0" 75 70 5) = [] ∧
    dispatchToCallbacks
        (on_power_threshold (with_config Unit MonitoringConfig.default 0 0) 100
          fun profile => [Invocation.powerHandler "user" profile]).callbacks
        (MonitoringEvent.PowerAlert 150 100 5) = [] := by
  constructor <;>
    simp [dispatchToCallbacks, on_thermal_threshold, on_power_threshold,
      on_event, add_callback, with_config, on_thermal_threshold_closure,
      on_power_threshold_closure]

end Theorems

end HardwareQuery
